import Mathlib

set_option autoImplicit false

namespace SatvikScan

/-!
Shallow embedding of the SatvikScan food-validation service:
the classification adapter (`src/queue/processor.ts`), the worker job
handler (`src/queue/worker.ts`), the queue configuration
(`src/queue/config.ts`), and the HTTP gateway handlers (`src/index.ts`,
the unnamed Hono application file).

JavaScript strings are embedded as Lean `String`; `Buffer` values as
`List Nat` (one entry per byte); JS `undefined`/`null` and absent fields
as `Option`; thrown JS exceptions as `Except.error` carrying the error
message.  Wall-clock fields (`processingTime`, `completedAt`, the job
timestamps) are real-time values and are omitted from the embedding;
`console.log` calls are omitted as pure output.
-/

/-- Character class of the JavaScript regex `\s` and of `String.prototype.trim`. -/
def isJsWs (c : Char) : Bool :=
  c = ' ' || c = '\t' || c = '\n' || c = '\r' || c = '\x0b' || c = '\x0c' ||
  c = '\u00a0' || c = '\u1680' || (0x2000 <= c.toNat && c.toNat <= 0x200a) ||
  c = '\u2028' || c = '\u2029' || c = '\u202f' || c = '\u205f' ||
  c = '\u3000' || c = '\ufeff'

/-- Line terminators, i.e. the characters NOT matched by `.` in a JavaScript
regex without the `s` flag. -/
def isJsLineTerm (c : Char) : Bool :=
  c = '\n' || c = '\r' || c = '\u2028' || c = '\u2029'

/-- If `pre` is a leading run of `cs`, return the remainder; otherwise `none`. -/
def dropLead? : (pre cs : List Char) → Option (List Char)
  | [], cs => some cs
  | _ :: _, [] => none
  | p :: ps, c :: cs => if c = p then dropLead? ps cs else none

/-- JavaScript `s.startsWith(pre)`. -/
def jsStartsWith (s pre : String) : Bool :=
  (dropLead? pre.data s.data).isSome

/-- JavaScript `s.trim()`. -/
def jsTrim (s : String) : String :=
  String.mk (((s.data.dropWhile isJsWs).reverse.dropWhile isJsWs).reverse)

/-- Split a character list at its first `;` (the `;` is consumed); `none` when
no `;` occurs.  This is the splitting behaviour of the regex fragment
`([^;]+);` (modulo the non-emptiness check made by the caller). -/
def splitAtSemicolon : List Char → Option (List Char × List Char)
  | [] => none
  | c :: cs =>
    if c = ';' then some ([], cs)
    else
      match splitAtSemicolon cs with
      | none => none
      | some (a, b) => some (c :: a, b)

/-- The match of the JavaScript regex `^data:([^;]+);base64,(.+)$` against a
string (as in processor.ts line 85): `some (mediatype, data)` on success.
`[^;]+` requires a non-empty, semicolon-free media type ending at the first
`;`, which must be followed by the literal `base64,`; `(.+)$` requires a
non-empty remainder containing no line terminator (`.` does not match line
terminators, and `$` without the `m` flag only matches at the very end). -/
def matchDataUrl (s : String) : Option (String × String) :=
  match dropLead? "data:".data s.data with
  | none => none
  | some rest =>
    match splitAtSemicolon rest with
    | none => none
    | some (mt, after) =>
      if mt.isEmpty then none
      else
        match dropLead? "base64,".data after with
        | none => none
        | some d =>
          if d.isEmpty then none
          else if d.any isJsLineTerm then none
          else some (String.mk mt, String.mk d)

/-- JavaScript `o || dflt` for an optional string field: the default is used
when the field is absent or the empty string (both falsy). -/
def jsOrStr (o : Option String) (dflt : String) : String :=
  match o with
  | some s => if s.isEmpty then dflt else s
  | none => dflt

/-- JavaScript truthiness of an optional string field. -/
def strTruthy (o : Option String) : Bool :=
  match o with
  | some s => !s.isEmpty
  | none => false

/-- The base64 branch of the adapter (processor.ts lines 80-95): returns the
pair (cleanBase64, mediaType).  `cleanBase64` is the exact string later passed
to `Buffer.from(cleanBase64, base64)`.  The media type starts as
`job.data.mediaType || 'image/jpeg'` and is overwritten by the declared media
type when the data-URL regex matches. -/
def normalizeBase64 (imageBase64 : String) (taskMediaType : Option String) :
    String × String :=
  let mediaType := jsOrStr taskMediaType "image/jpeg"
  if jsStartsWith imageBase64 "data:" then
    match matchDataUrl imageBase64 with
    | some (mt, d) => (d, mt)
    | none => (imageBase64, mediaType)
  else (imageBase64, mediaType)

/-- Task payload (`FoodValidationTask` in processor.ts).  `imageFile` is a
`Buffer`. -/
structure FoodValidationTask where
  imageFile : Option (List Nat) := none
  imageUrl : Option String := none
  imageBase64 : Option String := none
  foodName : Option String := none
  ingredients : Option String := none
  mediaType : Option String := none
deriving DecidableEq

/-- The `data` field of the file part pushed into the user message.  The
base64 branch passes the buffer decoded from `cleanBase64`; Node base64
decoding is kept symbolic as `decodedBase64 cleanBase64`, recording exactly
which string is decoded. -/
inductive FileData where
  | bytes (b : List Nat)
  | url (u : String)
  | decodedBase64 (cleanBase64 : String)
deriving DecidableEq

/-- A file content part: the `data` and `mediaType` fields pushed into the user message. -/
structure FilePart where
  data : FileData
  mediaType : String
deriving DecidableEq

/-- The image content part the adapter pushes into `userContent`
(processor.ts lines 60-102): an if/else-if chain on the JS truthiness of
`imageFile`, then `imageUrl`, then `imageBase64`; `none` when no branch
fires. -/
def imageFilePart (t : FoodValidationTask) : Option FilePart :=
  if t.imageFile.isSome then
    some ⟨FileData.bytes (t.imageFile.getD []), jsOrStr t.mediaType "image/jpeg"⟩
  else if strTruthy t.imageUrl then
    some ⟨FileData.url (t.imageUrl.getD ""), "image/jpeg"⟩
  else if strTruthy t.imageBase64 then
    let cm := normalizeBase64 (t.imageBase64.getD "") t.mediaType
    some ⟨FileData.decodedBase64 cm.1, cm.2⟩
  else none

/-- The user message the adapter sends to the model: the text part (with
appended food name and ingredient hints, processor.ts lines 104-118) and the
optional image file part. -/
structure UserMessage where
  text : String
  filePart : Option FilePart
deriving DecidableEq

/-- Builds the single user turn of the model request (processor.ts
lines 50-119). -/
def buildUserMessage (t : FoodValidationTask) : UserMessage :=
  let baseText :=
    "Please analyze this food image and determine its compliance with various dietary standards."
  let foodName := jsOrStr t.foodName ""
  let ingredients := jsOrStr t.ingredients ""
  let text :=
    if !foodName.isEmpty || !ingredients.isEmpty then
      baseText ++ "\n\nAdditional information:\n" ++
        (if !foodName.isEmpty then "Food name: " ++ foodName ++ "\n" else "") ++
        (if !ingredients.isEmpty then "Ingredients: " ++ ingredients ++ "\n" else "")
    else baseText
  ⟨text, imageFilePart t⟩

/-- The code-fence stripping applied to the model reply (processor.ts
lines 144-155): trim, then remove a leading three-backtick-json or
three-backtick marker together with following whitespace, then remove a
trailing three-backtick marker together with preceding whitespace. -/
def stripTrailingFence (s : String) : String :=
  match dropLead? "```".data.reverse s.data.reverse with
  | some restRev => String.mk ((restRev.dropWhile isJsWs).reverse)
  | none => s

/-- Cleans the raw model reply before JSON parsing (processor.ts
lines 146-155). -/
def cleanModelResponse (text : String) : String :=
  let c := jsTrim text
  match dropLead? "```json".data c.data with
  | some rest => stripTrailingFence (String.mk (rest.dropWhile isJsWs))
  | none =>
    match dropLead? "```".data c.data with
    | some rest => stripTrailingFence (String.mk (rest.dropWhile isJsWs))
    | none => c

/-- The Classification Result shape (spec section 3; response format in the
repository README): food item, ingredient list, five yes/no compliance flags
and a list of reason strings. -/
structure ClassificationResult where
  food_item : String
  ingredients : List String
  is_veg : String
  is_swaminarayan_compliant : String
  is_jain_compliant : String
  is_vegan_compliant : String
  is_upvas_compliant : String
  reason : List String
deriving DecidableEq

/-- The record `processFoodValidation` resolves with (`FoodValidationResult`
in processor.ts); `α` is the type of the parsed JSON value stored in
`result`.  The wall-clock fields `processingTime` and `completedAt` are
omitted. -/
structure FVResult (α : Type) where
  taskId : String
  status : String
  result? : Option α
  error? : Option String
deriving DecidableEq

/-- `processFoodValidation` (processor.ts lines 34-192).  `callModel` embeds
the awaited `generateText` call: `Except.error e` is a thrown transport or
rate-limit error with message `e`, `Except.ok text` a reply with text `text`.
`jsonParse` embeds `JSON.parse`: `Except.error pe` is a thrown syntax error
with message `pe`.  The function mirrors the source control flow: the inner
parse failure is rethrown as a
`Failed to parse AI response as JSON: ...` error, and the outer catch turns
EVERY thrown error into a normally returned record with status `failed`, so
the embedding never produces `Except.error`. -/
def processFoodValidation (α : Type) (taskId : String) (task : FoodValidationTask)
    (callModel : UserMessage → Except String String)
    (jsonParse : String → Except String α) : Except String (FVResult α) :=
  let msg := buildUserMessage task
  match callModel msg with
  | Except.error e =>
    Except.ok ⟨taskId, "failed", none, some e⟩
  | Except.ok text =>
    match jsonParse (cleanModelResponse text) with
    | Except.ok v => Except.ok ⟨taskId, "completed", some v, none⟩
    | Except.error pe =>
      Except.ok ⟨taskId, "failed", none,
        some ("Failed to parse AI response as JSON: " ++ pe)⟩

/-- The job callback registered by the worker (worker.ts lines 7-18): await
`processFoodValidation`, return its result, and rethrow any error so that it
would trigger the retry mechanism. -/
def workerHandler (α : Type) (taskId : String) (task : FoodValidationTask)
    (callModel : UserMessage → Except String String)
    (jsonParse : String → Except String α) : Except String (FVResult α) :=
  match processFoodValidation α taskId task callModel jsonParse with
  | Except.ok r => Except.ok r
  | Except.error e => Except.error e

/-- Bull job states (spec section 3). -/
inductive JobState where
  | waiting
  | active
  | completed
  | failed
  | delayed
deriving DecidableEq

/-- The queue bookkeeping entry for a job, as read back by the status
endpoint: state, attempt counters, the resolved return value and the failure
reason. -/
structure JobRecord (α : Type) where
  state : JobState
  attemptsMade : Nat
  maxAttempts : Nat
  returnvalue : Option (FVResult α)
  failedReason : Option String
deriving DecidableEq

/-- A freshly enqueued job (enqueued with `attempts: 3` by the gateway). -/
def freshJob (α : Type) (maxAttempts : Nat) : JobRecord α :=
  ⟨JobState.waiting, 0, maxAttempts, none, none⟩

/-- Modelled from the spec: Bull is external, so this is the job lifecycle of
spec section 3 — the Task Queue reaction to one handler outcome on a claimed
job.  A resolved handler completes the job; a thrown error re-enqueues it
(state delayed, for backoff) while attempts remain, and marks it failed
permanently once attempts are exhausted. -/
def applyOutcome (α : Type) (j : JobRecord α)
    (out : Except String (FVResult α)) : JobRecord α :=
  match out with
  | Except.ok r =>
    { j with state := JobState.completed, attemptsMade := j.attemptsMade + 1,
             returnvalue := some r }
  | Except.error e =>
    if j.attemptsMade + 1 < j.maxAttempts then
      { j with state := JobState.delayed, attemptsMade := j.attemptsMade + 1,
               failedReason := some e }
    else
      { j with state := JobState.failed, attemptsMade := j.attemptsMade + 1,
               failedReason := some e }

/-- Modelled from the spec: one queue transition.  Spec section 3 invariant —
completed and failed are terminal, with no resurrection — so a terminal job
absorbs any further event. -/
def queueStep (α : Type) (j : JobRecord α)
    (out : Except String (FVResult α)) : JobRecord α :=
  match j.state with
  | JobState.completed => j
  | JobState.failed => j
  | _ => applyOutcome α j out

/-- Modelled from the spec: drive a job to quiescence by repeatedly running
the handler (indexed by the zero-based attempt number) until the job is
terminal or `fuel` rounds have passed. -/
def runJob (α : Type) (handler : Nat → Except String (FVResult α))
    (fuel : Nat) (j : JobRecord α) : JobRecord α :=
  match fuel with
  | 0 => j
  | fuel + 1 =>
    match j.state with
    | JobState.completed => j
    | JobState.failed => j
    | _ => runJob α handler fuel (queueStep α j (handler j.attemptsMade))

/-- The queue configuration object (config.ts lines 18-37).  Environment
variables are embedded pre-parsed: `envConcurrency` is the numeric value of
`QUEUE_CONCURRENCY` when that variable is set. -/
structure QueueConfig where
  concurrency : Nat
  timeout : Nat
  attempts : Nat
  backoffType : String
  backoffDelay : Nat
  removeOnComplete : Nat
  removeOnFail : Nat
deriving DecidableEq

/-- `queueConfig` in config.ts. -/
def queueConfig (envConcurrency : Option Nat) : QueueConfig where
  concurrency := envConcurrency.getD 5
  timeout := 30 * 60 * 1000
  attempts := 3
  backoffType := "exponential"
  backoffDelay := 2000
  removeOnComplete := 24 * 60 * 60 * 1000
  removeOnFail := 7 * 24 * 60 * 60 * 1000

/-- Modelled from the spec collaborator contract: the Bull `queue.process`
API takes an optional concurrency argument and, when it is omitted, runs one
job at a time per registered processor (Bull documented default). -/
def bullDefaultConcurrency : Nat := 1

/-- Modelled from the spec collaborator contract: the concurrency bound of a
`queue.process` registration with an optional explicit concurrency. -/
def registeredConcurrency (explicitConcurrency : Option Nat) : Nat :=
  explicitConcurrency.getD bullDefaultConcurrency

/-- The concurrency bound of the registration made by worker.ts line 7:
`foodValidationQueue.process(name, handler)` passes NO concurrency
argument. -/
def workerProcessConcurrency : Nat := registeredConcurrency none

/-- The state name strings Bull reports and the status endpoint forwards. -/
def stateName : JobState → String
  | JobState.waiting => "waiting"
  | JobState.active => "active"
  | JobState.completed => "completed"
  | JobState.failed => "failed"
  | JobState.delayed => "delayed"

/-- The response body of GET task-status (the fields the claims speak about;
`progress`, the queue-position estimate and the wall-clock timestamps are
omitted). -/
structure StatusResponse (α : Type) where
  httpStatus : Nat
  success : Bool
  taskId : String
  status : Option String
  attempts : Option Nat
  maxAttempts : Option Nat
  result? : Option α
  error? : Option String
deriving DecidableEq

/-- The GET task-status handler (unnamed Hono application file,
lines 148-213): 404 when the job is unknown; otherwise the base response,
plus `result = returnvalue.result` when the state is completed and the
return value is truthy, plus `error = failedReason` when the state is failed
and the reason is truthy. -/
def taskStatusHandler (α : Type) (taskId : String)
    (lookup : Option (JobRecord α)) : StatusResponse α :=
  match lookup with
  | none => ⟨404, false, taskId, none, none, none, none, some "Task not found"⟩
  | some j =>
    let base : StatusResponse α :=
      ⟨200, true, taskId, some (stateName j.state), some j.attemptsMade,
        some j.maxAttempts, none, none⟩
    let withResult :=
      if j.state = JobState.completed then
        match j.returnvalue with
        | some rv => { base with result? := rv.result? }
        | none => base
      else base
    if j.state = JobState.failed then
      match j.failedReason with
      | some fr => { withResult with error? := some fr }
      | none => withResult
    else withResult

/-- The standard base64 alphabet. -/
def b64Alphabet : List Char :=
  "ABCDEFGHIJKLMNOPQRSTUVWXYZabcdefghijklmnopqrstuvwxyz0123456789+/".data

/-- The base64 digit for a sextet value. -/
def b64Char (n : Nat) : Char := b64Alphabet.getD n 'A'

/-- RFC 4648 base64 encoding of a byte list, with padding — the behaviour of
`buffer.toString` with the base64 encoding in Node. -/
def b64EncodeList : List Nat → List Char
  | [] => []
  | [a] => [b64Char (a / 4), b64Char (a % 4 * 16), '=', '=']
  | [a, b] => [b64Char (a / 4), b64Char (a % 4 * 16 + b / 16),
               b64Char (b % 16 * 4), '=']
  | a :: b :: c :: rest =>
    b64Char (a / 4) :: b64Char (a % 4 * 16 + b / 16) ::
      b64Char (b % 16 * 4 + c / 64) :: b64Char (c % 64) :: b64EncodeList rest

/-- `buffer.toString` with the base64 encoding. -/
def b64encode (bytes : List Nat) : String := String.mk (b64EncodeList bytes)

/-- The multipart form fields read by POST validate-food.  A present `image`
field carries the uploaded bytes and the declared content type (`File.type`,
the empty string when the browser supplied none); `formData.get` yields
`none` for an absent field. -/
structure FormData where
  image : Option (List Nat × String)
  imageUrl : Option String
  imageBase64 : Option String
  foodName : Option String
  ingredients : Option String
deriving DecidableEq

/-- The task payload built by POST validate-food (unnamed Hono application
file, lines 73-95): `imageFile` is never set; an uploaded file is re-encoded
to base64 with its declared content type (or image/jpeg when that is empty);
a URL is passed through; a base64 form field is passed through with media
type image/jpeg. -/
def buildTaskData (f : FormData) : FoodValidationTask :=
  let base : FoodValidationTask :=
    { imageFile := none, imageUrl := none, imageBase64 := none,
      foodName := some (jsOrStr f.foodName ""),
      ingredients := some (jsOrStr f.ingredients ""), mediaType := none }
  match f.image with
  | some (bytes, ctype) =>
    { base with imageBase64 := some (b64encode bytes),
                mediaType := some (if ctype.isEmpty then "image/jpeg" else ctype) }
  | none =>
    if strTruthy f.imageUrl then { base with imageUrl := f.imageUrl }
    else if strTruthy f.imageBase64 then
      { base with imageBase64 := f.imageBase64, mediaType := some "image/jpeg" }
    else base

/-- Outcome of POST validate-food: either an immediate 400 with an error
string and nothing enqueued, or a 200 after enqueueing the built task. -/
inductive ValidateFoodResponse where
  | badRequest (error : String)
  | queued (task : FoodValidationTask)
deriving DecidableEq

/-- The task a validate-food response enqueued, if any. -/
def enqueuedTask : ValidateFoodResponse → Option FoodValidationTask
  | ValidateFoodResponse.badRequest _ => none
  | ValidateFoodResponse.queued t => some t

/-- The POST validate-food handler (unnamed Hono application file,
lines 44-127): reject with 400 when no image field is truthy, otherwise
build the task payload and enqueue it. -/
def validateFoodHandler (f : FormData) : ValidateFoodResponse :=
  if !f.image.isSome && !strTruthy f.imageUrl && !strTruthy f.imageBase64 then
    ValidateFoodResponse.badRequest
      "Please provide either an image file, image URL, or base64 encoded image"
  else ValidateFoodResponse.queued (buildTaskData f)

/-- Does an optional file part use the raw-bytes branch of the adapter? -/
def isRawBytesPart : Option FilePart → Bool
  | some ⟨FileData.bytes _, _⟩ => true
  | _ => false

/-- A concrete Classification Result used to instantiate witnesses. -/
def sampleResult : ClassificationResult :=
  ⟨"Potato Chips", ["potato", "oil", "salt"], "yes", "yes", "no", "yes", "yes",
    ["- no animal product named"]⟩

/-- A concrete URL-only task used to instantiate witnesses. -/
def sampleUrlTask : FoodValidationTask :=
  ⟨none, some "http://example.com/a.jpg", none, some "", some "", none⟩

theorem dropLead?_append (pre rest : List Char) :
    dropLead? pre (pre ++ rest) = some rest := by
  induction pre with
  | nil => rfl
  | cons p ps ih => simp [dropLead?, ih]

theorem splitAtSemicolon_append (mt rest : List Char) (h : ';' ∉ mt) :
    splitAtSemicolon (mt ++ ';' :: rest) = some (mt, rest) := by
  induction mt with
  | nil => rfl
  | cons c cs ih =>
    have hc : ¬c = ';' := fun hc => h (hc ▸ List.mem_cons_self c cs)
    have ih' := ih (fun hm => h (List.mem_cons_of_mem c hm))
    simp only [List.cons_append, splitAtSemicolon, if_neg hc]
    rw [show cs.append (';' :: rest) = cs ++ ';' :: rest from rfl, ih']

theorem string_data_append (a b : String) : (a ++ b).data = a.data ++ b.data := rfl

/-- C1: the worker job handler never terminates exceptionally on an adapter
error.  When the model call throws with message `e`, the handler RETURNS a
normal result with status `failed` carrying `e`, so the error is swallowed
into a successful job completion instead of reaching the retry mechanism.
(This refutes the claim; the worker comment, the retry configuration and the
README document the intended retry behaviour, so the code is the slip.) -/
theorem c1_adapter_error_swallowed (α : Type) (taskId : String)
    (task : FoodValidationTask) (callModel : UserMessage → Except String String)
    (jsonParse : String → Except String α) (e : String)
    (h : callModel (buildUserMessage task) = Except.error e) :
    workerHandler α taskId task callModel jsonParse =
      Except.ok ⟨taskId, "failed", none, some e⟩ := by
  simp [workerHandler, processFoodValidation, h]

/-- Witness for C1 at a concrete transport error. -/
theorem c1_adapter_error_swallowed_witness :
    workerHandler ClassificationResult "7" sampleUrlTask
        (fun _ => Except.error "ECONNRESET")
        (fun _ => Except.error "unexpected token") =
      Except.ok ⟨"7", "failed", none, some "ECONNRESET"⟩ :=
  c1_adapter_error_swallowed ClassificationResult "7" sampleUrlTask
    (fun _ => Except.error "ECONNRESET") (fun _ => Except.error "unexpected token")
    "ECONNRESET" rfl

/-- C2: a task whose adapter call fails on EVERY attempt does NOT end in
queue state failed with attemptsMade = maxAttempts: because the processor
returns failures as normal results, the very first attempt resolves, Bull
marks the job completed, and attemptsMade is 1 (the return value records the
failure, the queue state does not).  This refutes the claim. -/
theorem c2_all_attempts_fail_job_completes (taskId : String)
    (task : FoodValidationTask) (callModel : UserMessage → Except String String)
    (jsonParse : String → Except String ClassificationResult) (e : String)
    (h : ∀ m, callModel m = Except.error e) :
    (runJob ClassificationResult
        (fun _ => workerHandler ClassificationResult taskId task callModel jsonParse)
        3 (freshJob ClassificationResult 3)).state = JobState.completed ∧
    (runJob ClassificationResult
        (fun _ => workerHandler ClassificationResult taskId task callModel jsonParse)
        3 (freshJob ClassificationResult 3)).attemptsMade = 1 ∧
    (runJob ClassificationResult
        (fun _ => workerHandler ClassificationResult taskId task callModel jsonParse)
        3 (freshJob ClassificationResult 3)).returnvalue =
      some ⟨taskId, "failed", none, some e⟩ := by
  simp [runJob, freshJob, queueStep, applyOutcome, workerHandler,
    processFoodValidation, h]

/-- Witness for C2 with an adapter that always throws. -/
theorem c2_all_attempts_fail_job_completes_witness :
    (runJob ClassificationResult
        (fun _ => workerHandler ClassificationResult "7" sampleUrlTask
          (fun _ => Except.error "network timeout")
          (fun _ => Except.error "unexpected token"))
        3 (freshJob ClassificationResult 3)).state = JobState.completed ∧
    (runJob ClassificationResult
        (fun _ => workerHandler ClassificationResult "7" sampleUrlTask
          (fun _ => Except.error "network timeout")
          (fun _ => Except.error "unexpected token"))
        3 (freshJob ClassificationResult 3)).attemptsMade = 1 ∧
    (runJob ClassificationResult
        (fun _ => workerHandler ClassificationResult "7" sampleUrlTask
          (fun _ => Except.error "network timeout")
          (fun _ => Except.error "unexpected token"))
        3 (freshJob ClassificationResult 3)).returnvalue =
      some ⟨"7", "failed", none, some "network timeout"⟩ :=
  c2_all_attempts_fail_job_completes "7" sampleUrlTask
    (fun _ => Except.error "network timeout") (fun _ => Except.error "unexpected token")
    "network timeout" (fun _ => rfl)

/-- C6: a POST validate-food request with none of the three image fields
present is answered immediately with HTTP 400 and exactly the error string
below, and no task is enqueued. -/
theorem c6_no_image_immediate_400 (foodName ingredients : Option String) :
    validateFoodHandler ⟨none, none, none, foodName, ingredients⟩ =
      ValidateFoodResponse.badRequest
        "Please provide either an image file, image URL, or base64 encoded image" ∧
    enqueuedTask (validateFoodHandler ⟨none, none, none, foodName, ingredients⟩) =
      none :=
  ⟨rfl, rfl⟩

/-- C7: on a model reply that fails JSON parsing, the adapter produces an
error whose message carries the PARSE ERROR message, not the raw reply text
(the raw text is only logged), and the outer catch converts it into a
normally returned failed-status record — so the queue sees a resolved job
and never retries.  This refutes the claim at a concrete input. -/
theorem c7_parse_failure_swallowed_without_raw_text :
    processFoodValidation ClassificationResult "9" sampleUrlTask
        (fun _ => Except.ok "I cannot analyze this image.")
        (fun _ => Except.error "Unexpected token I in JSON at position 0") =
      Except.ok ⟨"9", "failed", none,
        some "Failed to parse AI response as JSON: Unexpected token I in JSON at position 0"⟩ :=
  rfl

/-- C9: the worker registers its processor without a concurrency argument,
so the registered concurrency is the Bull default 1, while the configured
`queueConfig.concurrency` (QUEUE_CONCURRENCY unset) is 5 and is never passed
to the registration.  At most one classification call is in flight per
worker, refuting the claim. -/
theorem c9_concurrency_config_unused :
    workerProcessConcurrency = 1 ∧ (queueConfig none).concurrency = 5 ∧
    workerProcessConcurrency ≠ (queueConfig none).concurrency := by
  decide

/-- C3: when the adapter call succeeds and the reply, after code-fence
stripping, parses as a Classification Result `v`, the job ends in queue
state completed and the status endpoint returns exactly `v` as the result. -/
theorem c3_success_parse_completed (taskId : String) (task : FoodValidationTask)
    (callModel : UserMessage → Except String String)
    (jsonParse : String → Except String ClassificationResult)
    (text : String) (v : ClassificationResult)
    (hCall : callModel (buildUserMessage task) = Except.ok text)
    (hParse : jsonParse (cleanModelResponse text) = Except.ok v) :
    (runJob ClassificationResult
        (fun _ => workerHandler ClassificationResult taskId task callModel jsonParse)
        3 (freshJob ClassificationResult 3)).state = JobState.completed ∧
    (taskStatusHandler ClassificationResult taskId
        (some (runJob ClassificationResult
          (fun _ => workerHandler ClassificationResult taskId task callModel jsonParse)
          3 (freshJob ClassificationResult 3)))).result? = some v ∧
    (taskStatusHandler ClassificationResult taskId
        (some (runJob ClassificationResult
          (fun _ => workerHandler ClassificationResult taskId task callModel jsonParse)
          3 (freshJob ClassificationResult 3)))).httpStatus = 200 := by
  simp [runJob, freshJob, queueStep, applyOutcome, workerHandler,
    processFoodValidation, hCall, hParse, taskStatusHandler, stateName]

/-- Witness for C3 with a concrete fenced reply and a concrete parse. -/
theorem c3_success_parse_completed_witness :
    (runJob ClassificationResult
        (fun _ => workerHandler ClassificationResult "4" sampleUrlTask
          (fun _ => Except.ok "```json\nRESULT\n```")
          (fun s => if s = "RESULT" then Except.ok sampleResult
                    else Except.error "unexpected token"))
        3 (freshJob ClassificationResult 3)).state = JobState.completed ∧
    (taskStatusHandler ClassificationResult "4"
        (some (runJob ClassificationResult
          (fun _ => workerHandler ClassificationResult "4" sampleUrlTask
            (fun _ => Except.ok "```json\nRESULT\n```")
            (fun s => if s = "RESULT" then Except.ok sampleResult
                      else Except.error "unexpected token"))
          3 (freshJob ClassificationResult 3)))).result? = some sampleResult ∧
    (taskStatusHandler ClassificationResult "4"
        (some (runJob ClassificationResult
          (fun _ => workerHandler ClassificationResult "4" sampleUrlTask
            (fun _ => Except.ok "```json\nRESULT\n```")
            (fun s => if s = "RESULT" then Except.ok sampleResult
                      else Except.error "unexpected token"))
          3 (freshJob ClassificationResult 3)))).httpStatus = 200 :=
  c3_success_parse_completed "4" sampleUrlTask
    (fun _ => Except.ok "```json\nRESULT\n```")
    (fun s => if s = "RESULT" then Except.ok sampleResult
              else Except.error "unexpected token")
    "```json\nRESULT\n```" sampleResult rfl (by rfl)

/-- C5: the adapter picks exactly one image source with the fixed precedence
raw bytes over URL over base64: a present imageFile buffer is always used
(url and base64 ignored); with no buffer, a truthy imageUrl is used (base64
ignored); with neither, a truthy imageBase64 is normalized and decoded. -/
theorem c5_image_precedence (t : FoodValidationTask) :
    (∀ b, t.imageFile = some b →
      imageFilePart t = some ⟨FileData.bytes b, jsOrStr t.mediaType "image/jpeg"⟩) ∧
    (t.imageFile = none → ∀ u, t.imageUrl = some u → u.isEmpty = false →
      imageFilePart t = some ⟨FileData.url u, "image/jpeg"⟩) ∧
    (t.imageFile = none → strTruthy t.imageUrl = false →
      ∀ s, t.imageBase64 = some s → s.isEmpty = false →
      imageFilePart t =
        some ⟨FileData.decodedBase64 (normalizeBase64 s t.mediaType).1,
          (normalizeBase64 s t.mediaType).2⟩) := by
  refine ⟨?_, ?_, ?_⟩
  · intro b hb
    simp [imageFilePart, hb]
  · intro hf u hu hne
    simp [imageFilePart, hf, hu, strTruthy, hne]
  · intro hf hurl s hs hne
    simp only [strTruthy] at hurl
    simp [imageFilePart, hf, hurl, hs, strTruthy, hne]

/-- Witness for C5: with all three image fields populated, the raw-bytes
buffer wins. -/
theorem c5_image_precedence_witness :
    imageFilePart ⟨some [1, 2], some "http://example.com/a.png", some "QUJD",
        none, none, none⟩ =
      some ⟨FileData.bytes [1, 2], "image/jpeg"⟩ :=
  (c5_image_precedence
    ⟨some [1, 2], some "http://example.com/a.png", some "QUJD", none, none, none⟩).1
    [1, 2] rfl

/-- C8: after a job has reached a terminal state (completed or failed), any
further queue events leave its record unchanged — so any two status polls
after that point produce identical response bodies. -/
theorem c8_terminal_poll_idempotent (j : JobRecord ClassificationResult)
    (outs : List (Except String (FVResult ClassificationResult)))
    (taskId : String)
    (h : j.state = JobState.completed ∨ j.state = JobState.failed) :
    outs.foldl (queueStep ClassificationResult) j = j ∧
    taskStatusHandler ClassificationResult taskId
        (some (outs.foldl (queueStep ClassificationResult) j)) =
      taskStatusHandler ClassificationResult taskId (some j) := by
  have hstep : ∀ o, queueStep ClassificationResult j o = j := by
    intro o
    rcases h with h | h <;> simp [queueStep, h]
  have hfold : outs.foldl (queueStep ClassificationResult) j = j := by
    induction outs with
    | nil => rfl
    | cons o os ih => rw [List.foldl_cons, hstep o, ih]
  exact ⟨hfold, by rw [hfold]⟩

/-- Witness for C8 at a concrete completed job and a later error event. -/
theorem c8_terminal_poll_idempotent_witness :
    [(Except.error "late event" : Except String (FVResult ClassificationResult))].foldl
        (queueStep ClassificationResult)
        ⟨JobState.completed, 1, 3, some ⟨"4", "completed", some sampleResult, none⟩, none⟩ =
      ⟨JobState.completed, 1, 3, some ⟨"4", "completed", some sampleResult, none⟩, none⟩ ∧
    taskStatusHandler ClassificationResult "4"
        (some ([(Except.error "late event" : Except String (FVResult ClassificationResult))].foldl
          (queueStep ClassificationResult)
          ⟨JobState.completed, 1, 3, some ⟨"4", "completed", some sampleResult, none⟩, none⟩)) =
      taskStatusHandler ClassificationResult "4"
        (some ⟨JobState.completed, 1, 3, some ⟨"4", "completed", some sampleResult, none⟩, none⟩) :=
  c8_terminal_poll_idempotent
    ⟨JobState.completed, 1, 3, some ⟨"4", "completed", some sampleResult, none⟩, none⟩
    [Except.error "late event"] "4" (Or.inl rfl)

/-- C4: base64 input normalization.  A well-formed data URL (non-empty
semicolon-free media type, non-empty data with no line terminator, so that
the source regex matches) has its media type extracted and exactly its data
part decoded; a string without the data-URL prefix is decoded as given, and
when the task carries no media type the media type defaults to image/jpeg. -/
theorem c4_base64_normalization (mt d s : String) (tm : Option String) :
    (';' ∉ mt.data → mt.data.isEmpty = false → d.data.isEmpty = false →
      d.data.any isJsLineTerm = false →
      normalizeBase64 ("data:" ++ mt ++ ";base64," ++ d) tm = (d, mt)) ∧
    (jsStartsWith s "data:" = false →
      (normalizeBase64 s tm).1 = s ∧
      (tm = none → (normalizeBase64 s tm).2 = "image/jpeg")) := by
  constructor
  · intro hsemi hmt hd hlt
    have hdecomp : ("data:" ++ mt ++ ";base64," ++ d).data
        = "data:".data ++ (mt.data ++ ';' :: ("base64,".data ++ d.data)) := by
      simp [string_data_append, List.append_assoc]
    have h1 : dropLead? "data:".data ("data:" ++ mt ++ ";base64," ++ d).data
        = some (mt.data ++ ';' :: ("base64,".data ++ d.data)) := by
      rw [hdecomp]; exact dropLead?_append _ _
    have h2 : splitAtSemicolon (mt.data ++ ';' :: ("base64,".data ++ d.data))
        = some (mt.data, "base64,".data ++ d.data) :=
      splitAtSemicolon_append _ _ hsemi
    have h3 : dropLead? "base64,".data ("base64,".data ++ d.data)
        = some d.data := dropLead?_append _ _
    have hmatch : matchDataUrl ("data:" ++ mt ++ ";base64," ++ d) = some (mt, d) := by
      simp only [matchDataUrl, h1, h2, h3, hmt, hd, hlt]
      simp
    have hstart : jsStartsWith ("data:" ++ mt ++ ";base64," ++ d) "data:" = true := by
      unfold jsStartsWith
      rw [h1]
      rfl
    simp [normalizeBase64, hstart, hmatch]
  · intro h
    refine ⟨by simp [normalizeBase64, h], fun htm => by simp [normalizeBase64, h, htm, jsOrStr]⟩

/-- Witness for C4 at a concrete data URL and a concrete raw base64 string. -/
theorem c4_base64_normalization_witness :
    normalizeBase64 ("data:" ++ "image/png" ++ ";base64," ++ "QUJD") none =
      ("QUJD", "image/png") ∧
    (normalizeBase64 "QUJD" none).1 = "QUJD" ∧
    (normalizeBase64 "QUJD" none).2 = "image/jpeg" :=
  ⟨(c4_base64_normalization "image/png" "QUJD" "QUJD" none).1
      (by decide) (by decide) (by decide) (by decide),
    ((c4_base64_normalization "image/png" "QUJD" "QUJD" none).2 (by decide)).1,
    ((c4_base64_normalization "image/png" "QUJD" "QUJD" none).2 (by decide)).2 rfl⟩

theorem buildTaskData_imageFile_none (f : FormData) :
    (buildTaskData f).imageFile = none := by
  rcases himg : f.image with _ | ⟨b, ct⟩
  · simp only [buildTaskData, himg]
    split_ifs <;> rfl
  · simp [buildTaskData, himg]

theorem rawBytes_not_used_of_imageFile_none (t : FoodValidationTask)
    (h : t.imageFile = none) : isRawBytesPart (imageFilePart t) = false := by
  unfold imageFilePart
  rw [h]
  simp only [Option.isSome_none, Bool.false_eq_true, if_false]
  split_ifs <;> rfl

/-- C10: the gateway never populates the raw-bytes field.  For every form
input, the built task has imageFile unset; an uploaded file is re-encoded to
base64 with its declared content type (image/jpeg when that is empty); hence
the adapter raw-bytes branch is unreachable for gateway-built tasks. -/
theorem c10_gateway_never_raw_bytes (f : FormData) :
    (buildTaskData f).imageFile = none ∧
    (∀ b ct, f.image = some (b, ct) →
      (buildTaskData f).imageBase64 = some (b64encode b) ∧
      (buildTaskData f).mediaType =
        some (if ct.isEmpty then "image/jpeg" else ct)) ∧
    isRawBytesPart (imageFilePart (buildTaskData f)) = false := by
  refine ⟨buildTaskData_imageFile_none f, ?_,
    rawBytes_not_used_of_imageFile_none _ (buildTaskData_imageFile_none f)⟩
  intro b ct himg
  constructor <;> simp [buildTaskData, himg]

/-- Witness for C10 at a concrete file upload. -/
theorem c10_gateway_never_raw_bytes_witness :
    (buildTaskData ⟨some ([1, 2, 3], "image/png"), none, none, none, none⟩).imageFile
        = none ∧
    (buildTaskData ⟨some ([1, 2, 3], "image/png"), none, none, none, none⟩).imageBase64
        = some "AQID" ∧
    (buildTaskData ⟨some ([1, 2, 3], "image/png"), none, none, none, none⟩).mediaType
        = some "image/png" ∧
    isRawBytesPart (imageFilePart
        (buildTaskData ⟨some ([1, 2, 3], "image/png"), none, none, none, none⟩)) = false := by
  have h := c10_gateway_never_raw_bytes ⟨some ([1, 2, 3], "image/png"), none, none, none, none⟩
  have h2 := h.2.1 [1, 2, 3] "image/png" rfl
  refine ⟨h.1, ?_, ?_, h.2.2⟩
  · rw [h2.1]
    rfl
  · rw [h2.2]
    decide

end SatvikScan
